import Mathlib

/-!
Verification development for the identity and cross-device synchronization
manager of the tiny-essay-editor repository (src/DocExplorer/account.ts).

The document store (automerge-repo) and the external identity provider are
external collaborators of the code under verification; they are embedded as
opaque parameters (a document-identifier validity predicate, injected session
and profile values, injected negotiation responses), while every function of
the repository itself is translated operation by operation from the source.
-/

namespace TinyEssay

/-! ### Character-level helpers for the token codec

The token codec of account.ts works on JavaScript strings; we model them as
Lean strings and work on their `List Char` contents. -/

/-- Drop a fixed marker from the front of a character list; `none` when the
list does not start with the marker. -/
def stripPre : List Char → List Char → Option (List Char)
  | [], l => some l
  | _ :: _, [] => none
  | p :: ps, c :: cs => if p = c then stripPre ps cs else none

/-- Split a character list at its first slash: `some (before, after)`, or
`none` when no slash occurs.  This is the semantics of the regex fragment
`([^/]+)\/(.+)` of account.ts line 497: the first group is greedy but cannot
cross a slash, so it always ends at the first slash of the input. -/
def splitSlash : List Char → Option (List Char × List Char)
  | [] => none
  | c :: cs =>
    if c = '/' then some ([], cs)
    else
      match splitSlash cs with
      | some (a, b) => some (c :: a, b)
      | none => none

/-- Line terminators, which the JavaScript regex atom `.` does not match
(ECMAScript: LF, CR, LS, PS). -/
def isLineTerm (c : Char) : Bool :=
  c.toNat = 10 || c.toNat = 13 || c.toNat = 8232 || c.toNat = 8233

/-- The characters `encodeURIComponent` leaves unescaped
(ECMAScript uriUnescaped: alphanumerics and `- _ . ! ~ * ' ( )`). -/
def isUnreservedChar (c : Char) : Bool :=
  let n := c.toNat
  (65 ≤ n && n ≤ 90) || (97 ≤ n && n ≤ 122) || (48 ≤ n && n ≤ 57) ||
  n = 45 || n = 95 || n = 46 || n = 33 || n = 126 || n = 42 || n = 39 ||
  n = 40 || n = 41

/-- UTF-8 byte sequence of a Unicode scalar value, as `encodeURIComponent`
escapes non-unreserved characters byte by byte. -/
def utf8Bytes (c : Char) : List Nat :=
  if c.toNat < 128 then [c.toNat]
  else if c.toNat < 2048 then [192 + c.toNat / 64, 128 + c.toNat % 64]
  else if c.toNat < 65536 then
    [224 + c.toNat / 4096, 128 + (c.toNat / 64) % 64, 128 + c.toNat % 64]
  else
    [240 + c.toNat / 262144, 128 + (c.toNat / 4096) % 64,
      128 + (c.toNat / 64) % 64, 128 + c.toNat % 64]

/-- Uppercase hexadecimal digits used by percent-escapes. -/
def hexDigitChars : List Char :=
  ['0', '1', '2', '3', '4', '5', '6', '7', '8', '9', 'A', 'B', 'C', 'D', 'E', 'F']

/-- Positional lookup in a character list with `'0'` as fallback. -/
def nthCharD : List Char → Nat → Char
  | [], _ => '0'
  | c :: _, 0 => c
  | _ :: cs, n + 1 => nthCharD cs n

/-- Hexadecimal digit character for a nibble value. -/
def hexDigit (n : Nat) : Char := nthCharD hexDigitChars n

/-- Percent-escape of one byte: `%XY`. -/
def encByte (b : Nat) : List Char := ['%', hexDigit (b / 16), hexDigit (b % 16)]

/-- Encoding of a single character under `encodeURIComponent`. -/
def encChar (c : Char) : List Char :=
  if isUnreservedChar c then [c] else (utf8Bytes c).flatMap encByte

/-- Encoding of a character list under `encodeURIComponent`. -/
def encListChars (l : List Char) : List Char := l.flatMap encChar

/-- The ECMAScript `encodeURIComponent` function, used by the token encoder
on the display label. -/
def encodeURIComponent (s : String) : String := String.mk (encListChars s.data)

/-! ### The token codec (account.ts lines 485-507) -/

/-- The characters of the `automerge:` scheme marker of document addresses. -/
def automergeMarker : List Char := "automerge:".data

/-- The characters of the `account:` marker of account tokens. -/
def accountMarker : List Char := "account:".data

/-- The `documentId` component of `parseAutomergeUrl(url)`: the part of the
address after the `automerge:` scheme marker.  The library function throws on
a string without that marker; this is modelled by `none`. -/
def parseAutomergeUrlDocumentId (url : String) : Option String :=
  (stripPre automergeMarker url.data).map String.mk

/-- The document store's address validity check `isValidAutomergeUrl`:
the string carries the `automerge:` scheme marker and its identifier part
passes the store's own identifier-validity check, which is external to the
repository and therefore a parameter `validId` of the model. -/
def isValidAutomergeUrl (validId : String → Bool) (url : String) : Bool :=
  match stripPre automergeMarker url.data with
  | some rest => validId (String.mk rest)
  | none => false

/-- account.ts `automergeUrlToAccountToken`: builds
`account:<encodeURIComponent name>/<documentId>`.  The source calls
`parseAutomergeUrl`, which throws on a non-automerge address; the throw is
modelled by `none`. -/
def automergeUrlToAccountToken (url : String) (name : String) : Option String :=
  (parseAutomergeUrlDocumentId url).map fun documentId =>
    "account:" ++ encodeURIComponent name ++ "/" ++ documentId

/-- account.ts `accountTokenToAutomergeUrl`: matches the token against the
regex `^account:([^/]+)\/(.+)$` (so the label group is a nonempty slash-free
run ending at the first slash, and the identifier group is the nonempty
remainder, which `.` forbids to contain line terminators), then validates
`automerge:<documentId>` with the store's check; any failure yields
`undefined`, modelled as `none`.  The source's extra `!match[2]` test is
subsumed: the second group is nonempty whenever the regex matches. -/
def accountTokenToAutomergeUrl (validId : String → Bool) (token : String) :
    Option String :=
  match stripPre accountMarker token.data with
  | none => none
  | some rest =>
    match splitSlash rest with
    | none => none
    | some (label, idPart) =>
      if label ≠ [] ∧ idPart ≠ [] ∧ idPart.all (fun c => !(isLineTerm c)) then
        if isValidAutomergeUrl validId ("automerge:" ++ String.mk idPart) then
          some ("automerge:" ++ String.mk idPart)
        else none
      else none

/-! ### Data model (account.ts lines 22-46)

Automerge documents are schemaless JavaScript objects; the interfaces of
account.ts list the fields each kind of document may carry.  A freshly
created document has no fields at all, so every field is optional in the
model and `repo.create` produces the all-`none` record. -/

/-- The `atprotoProfile` object written into a registered contact. -/
structure AtprotoProfile where
  displayName : Option String
  handle : String
  avatar : Option String
deriving Repr, DecidableEq

/-- The discriminant of `ContactDoc`: `"anonymous"` or `"registered"`. -/
inductive ContactType
  | anonymous
  | registered
deriving Repr, DecidableEq

/-- A contact document.  The source's `ContactDoc` is the tagged union of
`AnonymousContactDoc` and `RegisteredContactDoc`; since the code mutates the
`type` tag and the other fields independently, the model keeps one record
with every field optional (a fresh document has none of them). -/
structure ContactDoc where
  type : Option ContactType := none
  name : Option String := none
  avatarUrl : Option String := none
  atprotoProfile : Option AtprotoProfile := none
deriving Repr, DecidableEq

/-- An identity document (`AccountDoc` in the source). -/
structure AccountDoc where
  contactUrl : Option String := none
  rootFolderUrl : Option String := none
  atprotoDid : Option String := none
  atprotoHandle : Option String := none
  pssJwt : Option String := none
  lastOnlineSync : Option Nat := none
deriving Repr, DecidableEq

/-- A root folder document (`FolderDoc` from the folders datatype; only its
`docs` list is touched by account.ts). -/
structure FolderDoc where
  docs : Option (List String) := none
deriving Repr, DecidableEq

/-- A document of the store, one of the three kinds account.ts creates. -/
inductive Doc
  | account (d : AccountDoc)
  | contact (d : ContactDoc)
  | folder (d : FolderDoc)
deriving Repr, DecidableEq

/-- The document store, as an association list from addresses to documents.
Newly created documents are put in front, so a lookup always sees the most
recent binding for an address. -/
abbrev Store := List (String × Doc)

/-- Look up a document by address (the resolution performed by
`repo.find(url)` followed by `await handle.doc()`). -/
def findDoc (store : Store) (url : String) : Option Doc :=
  match store with
  | [] => none
  | (u, d) :: rest => if u = url then some d else findDoc rest url

/-- Apply a `handle.change` mutator to the document at an address. -/
def updateDoc (store : Store) (url : String) (f : Doc → Doc) : Store :=
  match store with
  | [] => []
  | (u, d) :: rest =>
    if u = url then (u, f d) :: rest else (u, d) :: updateDoc rest url f

/-- Addresses of documents created by `repo.create`, modelled as an injective
sequence indexed by a per-state counter (the store itself draws fresh random
identifiers; only freshness matters to the model). -/
def freshUrl (n : Nat) : String :=
  String.mk (automergeMarker ++ List.replicate n 'd')

/-- An authenticated external-provider session; the model only needs the DID
it carries (`session.did`). -/
structure Session where
  did : String
deriving Repr, DecidableEq

/-- The process state of the identity manager: the document store, the fresh
address counter, the persisted pointer slot
(`localStorage[ACCOUNT_URL_STORAGE_KEY]`), the two cached handles `#handle`
and `#contactHandle` (by address), the in-memory OAuth session `#session`,
the attached network adapters, and a count of emitted change events. -/
structure St where
  store : Store
  nextId : Nat
  localStorage : Option String
  handleUrl : String
  contactHandleUrl : String
  session : Option Session
  adapters : List String
  changeEmits : Nat
deriving Repr, DecidableEq

/-- Result of `createAccount`: the new state plus the three fresh addresses. -/
structure CreatedAccount where
  state : St
  accountUrl : String
  contactUrl : String
  rootFolderUrl : String

/-- account.ts `createAccount` (lines 373-398): create three fresh documents,
then make the contact anonymous, give the root folder an empty docs list, and
point the account at the other two. -/
def createAccount (s : St) : CreatedAccount :=
  let accountUrl := freshUrl s.nextId
  let contactUrl := freshUrl (s.nextId + 1)
  let rootFolderUrl := freshUrl (s.nextId + 2)
  let store0 : Store :=
    (rootFolderUrl, Doc.folder {}) :: (contactUrl, Doc.contact {}) ::
      (accountUrl, Doc.account {}) :: s.store
  let store1 := updateDoc store0 contactUrl fun d =>
    match d with
    | Doc.contact c => Doc.contact { c with type := some ContactType.anonymous }
    | d => d
  let store2 := updateDoc store1 rootFolderUrl fun d =>
    match d with
    | Doc.folder f => Doc.folder { f with docs := some [] }
    | d => d
  let store3 := updateDoc store2 accountUrl fun d =>
    match d with
    | Doc.account a =>
      Doc.account { a with contactUrl := some contactUrl,
                           rootFolderUrl := some rootFolderUrl }
    | d => d
  { state := { s with store := store3, nextId := s.nextId + 3 }
    accountUrl := accountUrl
    contactUrl := contactUrl
    rootFolderUrl := rootFolderUrl }

/-! ### Identity manager operations (account.ts lines 134-172) -/

/-- Errors raised through the document store while an operation runs:
`malformedUrl` when `repo.find` is handed something that is not a valid
document address (it throws), `unavailable` when a referenced document never
resolves, `noStorage` for `getAccount` on a storage-less repo. -/
inductive AccountError
  | malformedUrl
  | unavailable
  | noStorage
deriving Repr, DecidableEq

/-- The first statement of `Account.logIn` (line 136): the pointer slot is
overwritten before anything else happens. -/
def logInPersist (s : St) (accountUrl : String) : St :=
  { s with localStorage := some accountUrl }

/-- The remainder of `Account.logIn` (lines 138-144): resolve the account
document, resolve a handle to its contact document (`repo.find` needs a valid
address but does not wait for the contact document itself), swap both cached
handles and emit a change event.  On any failure the handles are untouched;
the second component reports the raised error. -/
def logInResolve (validId : String → Bool) (s : St) (accountUrl : String) :
    St × Option AccountError :=
  if isValidAutomergeUrl validId accountUrl then
    match findDoc s.store accountUrl with
    | some (Doc.account accountDoc) =>
      match accountDoc.contactUrl with
      | some contactUrl =>
        if isValidAutomergeUrl validId contactUrl then
          ({ s with handleUrl := accountUrl, contactHandleUrl := contactUrl,
                    changeEmits := s.changeEmits + 1 }, none)
        else (s, some AccountError.malformedUrl)
      | none => (s, some AccountError.malformedUrl)
    | some _ => (s, some AccountError.malformedUrl)
    | none => (s, some AccountError.unavailable)
  else (s, some AccountError.malformedUrl)

/-- account.ts `Account.logIn` (lines 134-145): persist the pointer, then
resolve and swap. -/
def logIn (validId : String → Bool) (s : St) (accountUrl : String) :
    St × Option AccountError :=
  logInResolve validId (logInPersist s accountUrl) accountUrl

/-- account.ts `Account.logOut` (lines 163-172): create a brand-new anonymous
identity, persist its address as the pointer, swap both handles, emit. -/
def logOut (s : St) : St :=
  let created := createAccount s
  { created.state with
      localStorage := some created.accountUrl
      handleUrl := created.accountUrl
      contactHandleUrl := created.contactUrl
      changeEmits := created.state.changeEmits + 1 }

/-- account.ts `Account.signUp` (lines 147-161): optionally upload the avatar
(the upload is external; `avatarUrl` is the reference it returns, `none` when
no avatar was passed), then mutate the contact document: set the tag to
registered, overwrite the name, and overwrite the avatar reference only when
one was produced.  There is no precondition check. -/
def signUp (s : St) (name : String) (avatarUrl : Option String) : St :=
  { s with
      store := updateDoc s.store s.contactHandleUrl fun d =>
        match d with
        | Doc.contact c =>
          Doc.contact
            { c with
                type := some ContactType.registered
                name := some name
                avatarUrl := match avatarUrl with
                  | some a => some a
                  | none => c.avatarUrl }
        | d => d }

/-! ### Sync-server negotiation (account.ts lines 220-293) -/

/-- The externally supplied outcomes of the two network steps of
`connectToPSS`.  `getRecord` is the provider record fetch: `none` when the
call throws, otherwise the success flag and the optional `host` field of the
record value.  `authData` is the authenticate POST together with its JSON
parse: `none` when either throws, otherwise the response's `rootDocUrl` and
`token` fields. -/
structure PSSInput where
  getRecord : Option (Bool × Option String)
  authData : Option (String × String)
deriving Repr, DecidableEq

/-- The body of `connectToPSS` as run inside its `try`.  An `Except.error`
carries the state at the instant an exception is raised, which is exactly the
state the surrounding silent `catch` keeps.

Execution order in the mismatch branch follows JavaScript semantics: the
calls `this.logOut()` and `this.logIn(data.rootDocUrl)` are not awaited, so
`logOut` (whose body has no await) runs to completion, `logIn` runs only up
to its first await - persisting the pointer - and the two `change` calls that
follow therefore mutate the fresh documents `logOut` just installed.  The
suspended remainder of `logIn` resumes only after the try block has finished;
it is applied last, and a rejection of that detached promise is unobserved
(`.1` drops it). -/
def connectToPSSBody (validId : String → Bool) (s : St) (i : PSSInput) :
    Except St St :=
  match i.getRecord with
  | none => Except.error s
  | some (success, host) =>
    if success then
      match host with
      | some pssHost =>
        if pssHost ≠ "" then
          match i.authData with
          | none => Except.error s
          | some (rootDocUrl, token) =>
            if rootDocUrl ≠ s.handleUrl then
              match findDoc s.store s.handleUrl with
              | some (Doc.account accountDoc) =>
                match accountDoc.contactUrl with
                | some contactUrl =>
                  match findDoc s.store contactUrl with
                  | some (Doc.contact contactDoc) =>
                    let s1 := logOut s
                    let s2 := logInPersist s1 rootDocUrl
                    let s3 :=
                      { s2 with
                          store := updateDoc s2.store s2.handleUrl fun d =>
                            match d with
                            | Doc.account a =>
                              Doc.account
                                { a with
                                    atprotoDid := accountDoc.atprotoDid
                                    atprotoHandle := accountDoc.atprotoHandle
                                    pssJwt := some token }
                            | d => d }
                    let s4 :=
                      { s3 with
                          store := updateDoc s3.store s3.contactHandleUrl fun d =>
                            match d with
                            | Doc.contact c =>
                              Doc.contact
                                { c with
                                    type := some ContactType.registered
                                    name := contactDoc.name
                                    atprotoProfile := contactDoc.atprotoProfile }
                            | d => d }
                    let s5 := { s4 with adapters := pssHost :: s4.adapters }
                    Except.ok (logInResolve validId s5 rootDocUrl).1
                  | _ => Except.error s
                | none => Except.error s
              | _ => Except.error s
            else
              let s3 :=
                { s with
                    store := updateDoc s.store s.handleUrl fun d =>
                      match d with
                      | Doc.account a => Doc.account { a with pssJwt := some token }
                      | d => d }
              Except.ok { s3 with adapters := pssHost :: s3.adapters }
        else Except.ok s
      | none => Except.ok s
    else Except.ok s

/-- account.ts `Account.connectToPSS`: the body above wrapped in the silent
catch of lines 290-292, which keeps whatever state the body had reached and
reports nothing. -/
def connectToPSS (validId : String → Bool) (s : St) (i : PSSInput) : St :=
  match connectToPSSBody validId s i with
  | Except.ok s' => s'
  | Except.error sPart => sPart

/-! ### Provider linking (account.ts lines 182-218) -/

/-- The external profile returned by `agent.getProfile`. -/
structure AtprotoProfileData where
  handle : String
  displayName : Option String
  avatar : Option String
deriving Repr, DecidableEq

/-- account.ts `Account.loginWithAtProto`: the OAuth popup outcome and the
profile fetch outcome are external and injected (`none` models a throw).  On
a throw the catch logs and rethrows, reported as `some ()` in the second
component.  The document writes of the success path happen strictly after
both external steps; the name written is `displayName || handle`, so an
absent or empty display name falls back to the handle.  (The assignment to
`window.location.href` between the two steps is a browser navigation effect
outside the document model.) -/
def loginWithAtProto (validId : String → Bool) (s : St)
    (auth : Option Session) (profileData : Option AtprotoProfileData)
    (pss : PSSInput) : St × Option Unit :=
  match auth with
  | none => (s, some ())
  | some session =>
    let s1 := { s with session := some session }
    match profileData with
    | none => (s1, some ())
    | some profile =>
      let name :=
        match profile.displayName with
        | some d => if d = "" then profile.handle else d
        | none => profile.handle
      let s2 :=
        { s1 with
            store := updateDoc s1.store s1.handleUrl fun d =>
              match d with
              | Doc.account a =>
                Doc.account
                  { a with
                      atprotoDid := some session.did
                      atprotoHandle := some profile.handle }
              | d => d }
      let s3 :=
        { s2 with
            store := updateDoc s2.store s2.contactHandleUrl fun d =>
              match d with
              | Doc.contact c =>
                Doc.contact
                  { c with
                      type := some ContactType.registered
                      name := some name
                      atprotoProfile :=
                        some
                          { displayName := profile.displayName
                            handle := profile.handle
                            avatar := profile.avatar } }
              | d => d }
      (connectToPSS validId s3 pss, none)

/-! ### Account bootstrap (account.ts lines 334-371) -/

/-- account.ts `getAccount`: the storage-subsystem guard comes first and
throws before the pointer slot is read or written and before any document is
created.  Then either the persisted pointer is loaded (resolving the account
and its contact reference) or a fresh identity is created and persisted.
(The module-level `CURRENT_ACCOUNT` memoisation sits after the guard and only
affects repeated calls; constructing the `Account` object itself is state
free here.) -/
def getAccount (validId : String → Bool) (hasStorage : Bool) (s : St) :
    St × Option AccountError :=
  if !hasStorage then (s, some AccountError.noStorage)
  else
    match s.localStorage with
    | some accountUrl =>
      if isValidAutomergeUrl validId accountUrl then
        match findDoc s.store accountUrl with
        | some (Doc.account accountDoc) =>
          match accountDoc.contactUrl with
          | some contactUrl =>
            ({ s with handleUrl := accountUrl, contactHandleUrl := contactUrl },
              none)
          | none => (s, some AccountError.malformedUrl)
        | some _ => (s, some AccountError.malformedUrl)
        | none => (s, some AccountError.unavailable)
      else (s, some AccountError.malformedUrl)
    | none =>
      let created := createAccount s
      ({ created.state with
          localStorage := some created.accountUrl
          handleUrl := created.accountUrl
          contactHandleUrl := created.contactUrl }, none)

/-! ### Cross-tab storage listener (account.ts lines 76-95) -/

/-- The `logIn` invocations issued by the storage-event listener for one
foreign write of a new account address: `docAtEvent` is the account document
as resolved when the event fires, `changes` the documents carried by the
subsequent change events of that handle.  If `contactUrl` is already
populated, `logIn` is called once and the listener returns; otherwise a
`change` watcher is registered which calls `logIn` on every change whose
document has `contactUrl` populated - the source never removes it.  Each
element of the result is the document state at one `logIn` call. -/
def storageListenerCalls (docAtEvent : AccountDoc)
    (changes : List AccountDoc) : List AccountDoc :=
  if docAtEvent.contactUrl.isSome then [docAtEvent]
  else changes.filter fun d => d.contactUrl.isSome

/-! ### Concrete sample data used by witnesses and counterexamples

The store's identifier-validity check is external; for concrete runs it is
instantiated with a finite whitelist of identifiers. -/

/-- A concrete instantiation of the external identifier-validity check. -/
def sampleValidId (id : String) : Bool :=
  ["docX", "accA", "contactA", "folderA", "accB", "contactB",
    "folderB"].contains id

/-- Contact document of the sample registered identity. -/
def adaContact : ContactDoc :=
  { type := some ContactType.registered
    name := some "Ada"
    avatarUrl := some "automerge:folderB"
    atprotoProfile :=
      some { displayName := some "Ada L."
             handle := "alice.example"
             avatar := none } }

/-- A state whose active identity `automerge:accA` is registered (contact
`automerge:contactA`) and linked to the provider, and in whose store a second
identity `automerge:accB` (contact `automerge:contactB`) exists. -/
def sampleSt : St :=
  { store :=
      [("automerge:accA",
        Doc.account
          { contactUrl := some "automerge:contactA"
            rootFolderUrl := some "automerge:folderA"
            atprotoDid := some "did:plc:alice"
            atprotoHandle := some "alice.example" }),
       ("automerge:contactA", Doc.contact adaContact),
       ("automerge:folderA", Doc.folder { docs := some [] }),
       ("automerge:accB",
        Doc.account
          { contactUrl := some "automerge:contactB"
            rootFolderUrl := some "automerge:folderB" }),
       ("automerge:contactB",
        Doc.contact
          { type := some ContactType.registered
            name := some "Old Ada" }),
       ("automerge:folderB", Doc.folder { docs := some [] })]
    nextId := 0
    localStorage := some "automerge:accA"
    handleUrl := "automerge:accA"
    contactHandleUrl := "automerge:contactA"
    session := some { did := "did:plc:alice" }
    adapters := []
    changeEmits := 0 }

/-- Negotiation input whose authenticate response names `automerge:accB` as
the canonical root - a root mismatch for `sampleSt`. -/
def mismatchPSS : PSSInput :=
  { getRecord := some (true, some "pss.example")
    authData := some ("automerge:accB", "newjwt") }

/-- The state reached after running the mismatch negotiation on `sampleSt`. -/
def mismatchFinal : St := connectToPSS sampleValidId sampleSt mismatchPSS

/-! ### Helper lemmas: strings and characters -/

theorem strData_append (a b : String) : (a ++ b).data = a.data ++ b.data := by
  cases a; cases b; rfl

theorem strMk_data (s : String) : String.mk s.data = s := by
  cases s; rfl

theorem strData_mk (l : List Char) : (String.mk l).data = l := rfl

theorem strData_ne_nil_of_ne_empty {s : String} (h : s ≠ "") : s.data ≠ [] := by
  intro hd
  exact h (by rw [← strMk_data s, hd])

theorem stripPre_append (p l : List Char) : stripPre p (p ++ l) = some l := by
  induction p with
  | nil => simp [stripPre]
  | cons c cs ih => simp [stripPre, ih]

theorem splitSlash_append (a b : List Char) (h : '/' ∉ a) :
    splitSlash (a ++ '/' :: b) = some (a, b) := by
  induction a with
  | nil => simp [splitSlash]
  | cons c cs ih =>
    have hc : ¬(c = '/') := fun hc => h (by simp [hc])
    have ih' := ih fun hm => h (List.mem_cons_of_mem _ hm)
    simp [splitSlash, hc, ih']

theorem splitSlash_eq_none (a : List Char) (h : '/' ∉ a) :
    splitSlash a = none := by
  induction a with
  | nil => rfl
  | cons c cs ih =>
    have hc : ¬(c = '/') := fun hc => h (by simp [hc])
    have ih' := ih fun hm => h (List.mem_cons_of_mem _ hm)
    simp [splitSlash, hc, ih']

theorem nthCharD_cases (l : List Char) (n : Nat) :
    nthCharD l n = '0' ∨ nthCharD l n ∈ l := by
  induction l generalizing n with
  | nil => exact Or.inl rfl
  | cons c cs ih =>
    cases n with
    | zero => exact Or.inr (by simp [nthCharD])
    | succ m =>
      rcases ih m with h | h
      · exact Or.inl h
      · exact Or.inr (by simp [nthCharD]; exact Or.inr h)

theorem hexDigit_ne_slash (n : Nat) : hexDigit n ≠ '/' := by
  have hall : ∀ c ∈ hexDigitChars, c ≠ '/' := by decide
  rcases nthCharD_cases hexDigitChars n with h | h
  · rw [hexDigit, h]; decide
  · exact hall _ h

theorem encByte_ne_slash (b : Nat) : ∀ c ∈ encByte b, c ≠ '/' := by
  intro c hc
  simp [encByte] at hc
  rcases hc with rfl | rfl | rfl
  · decide
  · exact hexDigit_ne_slash _
  · exact hexDigit_ne_slash _

theorem encChar_ne_slash (c : Char) : ∀ x ∈ encChar c, x ≠ '/' := by
  intro x hx
  rw [encChar] at hx
  by_cases h : isUnreservedChar c
  · rw [if_pos h] at hx
    simp at hx
    subst hx
    intro hc
    subst hc
    exact absurd h (by decide)
  · rw [if_neg h] at hx
    obtain ⟨b, _, hb⟩ := List.mem_flatMap.1 hx
    exact encByte_ne_slash b x hb

theorem slash_not_mem_encList (l : List Char) : '/' ∉ encListChars l := by
  intro h
  obtain ⟨c, _, hc⟩ := List.mem_flatMap.1 h
  exact encChar_ne_slash c _ hc rfl

theorem utf8Bytes_ne_nil (c : Char) : utf8Bytes c ≠ [] := by
  rw [utf8Bytes]
  split_ifs <;> simp

theorem encChar_ne_nil (c : Char) : encChar c ≠ [] := by
  rw [encChar]
  by_cases h : isUnreservedChar c
  · simp [h]
  · rw [if_neg h]
    rcases he : utf8Bytes c with _ | ⟨b, rest⟩
    · exact absurd he (utf8Bytes_ne_nil c)
    · simp [encByte]

theorem encList_ne_nil (l : List Char) (h : l ≠ []) : encListChars l ≠ [] := by
  cases l with
  | nil => exact absurd rfl h
  | cons c cs =>
    rw [encListChars]
    intro heq
    rw [List.flatMap_cons] at heq
    exact encChar_ne_nil c (List.append_eq_nil.1 heq).1

/-! ### Helper lemmas: the document store -/

theorem findDoc_updateDoc_self (store : Store) (url : String) (f : Doc → Doc) :
    findDoc (updateDoc store url f) url = (findDoc store url).map f := by
  induction store with
  | nil => simp [findDoc, updateDoc]
  | cons e rest ih =>
    obtain ⟨u, d⟩ := e
    by_cases h : u = url
    · simp [findDoc, updateDoc, h]
    · simp [findDoc, updateDoc, h, ih]

theorem findDoc_updateDoc_other (store : Store) (url url' : String)
    (f : Doc → Doc) (h : url' ≠ url) :
    findDoc (updateDoc store url' f) url = findDoc store url := by
  induction store with
  | nil => simp [findDoc, updateDoc]
  | cons e rest ih =>
    obtain ⟨u, d⟩ := e
    by_cases hu : u = url'
    · subst hu
      simp [findDoc, updateDoc, h]
    · simp [findDoc, updateDoc, hu, ih]

theorem updateDoc_length (store : Store) (url : String) (f : Doc → Doc) :
    (updateDoc store url f).length = store.length := by
  induction store with
  | nil => rfl
  | cons e rest ih =>
    obtain ⟨u, d⟩ := e
    by_cases h : u = url
    · simp [updateDoc, h]
    · simp [updateDoc, h, ih]

theorem freshUrl_inj {m n : Nat} (h : freshUrl m = freshUrl n) : m = n := by
  have hd : (freshUrl m).data = (freshUrl n).data := by rw [h]
  rw [freshUrl, freshUrl, strData_mk, strData_mk] at hd
  have hl := congrArg List.length hd
  simp [List.length_append, List.length_replicate] at hl
  exact hl

theorem createAccount_store (s : St) :
    (createAccount s).state.store =
      (freshUrl (s.nextId + 2), Doc.folder { docs := some [] }) ::
      (freshUrl (s.nextId + 1),
        Doc.contact { type := some ContactType.anonymous }) ::
      (freshUrl s.nextId,
        Doc.account { contactUrl := some (freshUrl (s.nextId + 1)),
                      rootFolderUrl := some (freshUrl (s.nextId + 2)) }) ::
      s.store := by
  have h21 : ¬(freshUrl (s.nextId + 2) = freshUrl (s.nextId + 1)) :=
    fun h => by have := freshUrl_inj h; omega
  have h20 : ¬(freshUrl (s.nextId + 2) = freshUrl s.nextId) :=
    fun h => by have := freshUrl_inj h; omega
  have h10 : ¬(freshUrl (s.nextId + 1) = freshUrl s.nextId) :=
    fun h => by have := freshUrl_inj h; omega
  simp [createAccount, updateDoc, h21, h20, h10]

/-! ### Claim C2 - token codec round trip -/

/-- C2, counterexample.  The claim asserts the round trip holds for every
label, "including the empty label".  It does not: with the empty label the
encoder emits `account:/docX`, whose label segment is empty, and the decoder's
regex requires a nonempty label, so decoding returns the malformed result
instead of the address. -/
theorem token_roundTrip_empty_label_cex :
    automergeUrlToAccountToken "automerge:docX" "" = some "account:/docX" ∧
    accountTokenToAutomergeUrl sampleValidId "account:/docX" = none := by
  decide

/-- C2, amended: for every document identifier accepted by the store's
validity check (such identifiers are base58 strings, hence nonempty and free
of line terminators, which the abstract check records as hypotheses) and
every NONEMPTY label, decoding the encoded token returns exactly the document
address containing the identifier.  The empty label has to be excluded (see
the counterexample). -/
theorem token_roundTrip (validId : String → Bool) (name id : String)
    (hname : name ≠ "") (hvalid : validId id = true) (hid : id ≠ "")
    (hlt : ∀ c ∈ id.data, isLineTerm c = false) :
    ∃ token, automergeUrlToAccountToken ("automerge:" ++ id) name = some token ∧
      accountTokenToAutomergeUrl validId token = some ("automerge:" ++ id) := by
  have hmark : ("automerge:" : String).data = automergeMarker := rfl
  have hacc : ("account:" : String).data = accountMarker := rfl
  have hslashstr : ("/" : String).data = ['/'] := rfl
  have henc_ne : encListChars name.data ≠ [] :=
    encList_ne_nil _ (strData_ne_nil_of_ne_empty hname)
  have henc_noslash := slash_not_mem_encList name.data
  have hidne : id.data ≠ [] := strData_ne_nil_of_ne_empty hid
  have hall : id.data.all (fun c => !(isLineTerm c)) = true := by
    rw [List.all_eq_true]
    intro c hc
    rw [hlt c hc]
    rfl
  have hvalid' : isValidAutomergeUrl validId ("automerge:" ++ String.mk id.data)
      = true := by
    have hmkd : ("automerge:" ++ String.mk id.data).data
        = automergeMarker ++ id.data := by
      rw [strData_append, hmark, strData_mk]
    simp only [isValidAutomergeUrl, hmkd, stripPre_append, strMk_data]
    exact hvalid
  refine ⟨"account:" ++ encodeURIComponent name ++ "/" ++ id, ?_, ?_⟩
  · have hd : ("automerge:" ++ id).data = automergeMarker ++ id.data := by
      rw [strData_append, hmark]
    simp only [automergeUrlToAccountToken, parseAutomergeUrlDocumentId, hd,
      stripPre_append]
    simp [strMk_data]
  · have hdata : ("account:" ++ encodeURIComponent name ++ "/" ++ id).data
        = accountMarker ++ (encListChars name.data ++ '/' :: id.data) := by
      rw [strData_append, strData_append, strData_append, hacc, hslashstr,
        encodeURIComponent, strData_mk]
      simp
    simp only [accountTokenToAutomergeUrl, hdata, stripPre_append,
      splitSlash_append _ _ henc_noslash]
    rw [if_pos ⟨henc_ne, hidne, hall⟩, if_pos hvalid', strMk_data]

/-- C2, witness for the amended round trip at concrete inputs. -/
theorem token_roundTrip_witness :
    ∃ token,
      automergeUrlToAccountToken ("automerge:" ++ "docX") "Ada" = some token ∧
      accountTokenToAutomergeUrl sampleValidId token
        = some ("automerge:" ++ "docX") :=
  token_roundTrip sampleValidId "Ada" "docX" (by decide) (by decide) (by decide)
    (by decide)

/-! ### Claim C6 - decoder strictness -/

/-- C6: the decoder returns the distinguished malformed result (it is a total
function, so it never throws) on every string missing the identifier segment,
on every string with an empty identifier segment, on every token whose
identifier fails the store's validity check, and on every string without the
`account:` marker; and whenever it returns an address at all, that address
passes the store's address-validity check. -/
theorem decode_strict (validId : String → Bool) :
    (∀ label : String, '/' ∉ label.data →
        accountTokenToAutomergeUrl validId ("account:" ++ label) = none) ∧
    (∀ label : String, '/' ∉ label.data →
        accountTokenToAutomergeUrl validId ("account:" ++ label ++ "/") = none) ∧
    (∀ label id : String, label ≠ "" → id ≠ "" → '/' ∉ label.data →
        '/' ∉ id.data → (∀ c ∈ id.data, isLineTerm c = false) →
        validId id = false →
        accountTokenToAutomergeUrl validId ("account:" ++ label ++ "/" ++ id)
          = none) ∧
    (∀ token u : String, accountTokenToAutomergeUrl validId token = some u →
        isValidAutomergeUrl validId u = true) ∧
    (∀ token : String, stripPre accountMarker token.data = none →
        accountTokenToAutomergeUrl validId token = none) := by
  have hacc : ("account:" : String).data = accountMarker := rfl
  have hmark : ("automerge:" : String).data = automergeMarker := rfl
  have hslashstr : ("/" : String).data = ['/'] := rfl
  refine ⟨?_, ?_, ?_, ?_, ?_⟩
  · intro label h
    have hd : ("account:" ++ label).data = accountMarker ++ label.data := by
      rw [strData_append, hacc]
    simp only [accountTokenToAutomergeUrl, hd, stripPre_append,
      splitSlash_eq_none _ h]
  · intro label h
    have hdata : ("account:" ++ label ++ "/").data
        = accountMarker ++ (label.data ++ '/' :: []) := by
      rw [strData_append, strData_append, hacc, hslashstr]
      simp
    simp only [accountTokenToAutomergeUrl, hdata, stripPre_append,
      splitSlash_append _ _ h]
    rw [if_neg]
    intro hc
    exact hc.2.1 rfl
  · intro label id hlabel hidne hl hs hlt hv
    have hdata : ("account:" ++ label ++ "/" ++ id).data
        = accountMarker ++ (label.data ++ '/' :: id.data) := by
      rw [strData_append, strData_append, strData_append, hacc, hslashstr]
      simp
    simp only [accountTokenToAutomergeUrl, hdata, stripPre_append,
      splitSlash_append _ _ hl]
    have hall : id.data.all (fun c => !(isLineTerm c)) = true := by
      rw [List.all_eq_true]
      intro c hc
      rw [hlt c hc]
      rfl
    rw [if_pos ⟨strData_ne_nil_of_ne_empty hlabel,
      strData_ne_nil_of_ne_empty hidne, hall⟩]
    rw [if_neg]
    intro hvv
    have hmkd : ("automerge:" ++ String.mk id.data).data
        = automergeMarker ++ id.data := by
      rw [strData_append, hmark, strData_mk]
    simp only [isValidAutomergeUrl, hmkd, stripPre_append, strMk_data] at hvv
    rw [hv] at hvv
    exact Bool.false_ne_true hvv
  · intro token u h
    simp only [accountTokenToAutomergeUrl] at h
    rcases hs : stripPre accountMarker token.data with _ | rest
    · simp only [hs] at h
      exact absurd h (by simp)
    · simp only [hs] at h
      rcases hsp : splitSlash rest with _ | ⟨label, idPart⟩
      · simp only [hsp] at h
        exact absurd h (by simp)
      · simp only [hsp] at h
        by_cases hc : label ≠ [] ∧ idPart ≠ [] ∧
            idPart.all (fun c => !(isLineTerm c))
        · rw [if_pos hc] at h
          by_cases hvv : isValidAutomergeUrl validId
              ("automerge:" ++ String.mk idPart) = true
          · rw [if_pos hvv] at h
            injection h with h
            rw [← h]
            exact hvv
          · rw [if_neg hvv] at h
            exact absurd h (by simp)
        · rw [if_neg hc] at h
          exact absurd h (by simp)
  · intro token h
    simp only [accountTokenToAutomergeUrl, h]

/-- C6, witness: a token with no identifier segment decodes to the malformed
result. -/
theorem decode_strict_witness :
    accountTokenToAutomergeUrl sampleValidId ("account:" ++ "Ada") = none :=
  (decode_strict sampleValidId).1 "Ada" (by decide)

/-! ### Claim C5 - logOut creates a fresh anonymous identity -/

theorem createAccount_accountUrl (s : St) :
    (createAccount s).accountUrl = freshUrl s.nextId := rfl

theorem createAccount_contactUrl (s : St) :
    (createAccount s).contactUrl = freshUrl (s.nextId + 1) := rfl

theorem createAccount_rootFolderUrl (s : St) :
    (createAccount s).rootFolderUrl = freshUrl (s.nextId + 2) := rfl

/-- C5: after `logOut()` the active contact document is anonymous, the active
identity document's `contactUrl` points at it and its `rootFolderUrl` at a
folder document that exists in the store, three fresh documents were created,
and the persisted pointer equals the new identity document's address. -/
theorem logOut_creates_anonymous_identity (s : St) :
    (logOut s).store.length = s.store.length + 3 ∧
    findDoc (logOut s).store (logOut s).contactHandleUrl
      = some (Doc.contact { type := some ContactType.anonymous }) ∧
    (∃ a : AccountDoc,
      findDoc (logOut s).store (logOut s).handleUrl = some (Doc.account a) ∧
      a.contactUrl = some (logOut s).contactHandleUrl ∧
      ∃ f, a.rootFolderUrl = some f ∧
        findDoc (logOut s).store f = some (Doc.folder { docs := some [] })) ∧
    (logOut s).localStorage = some (logOut s).handleUrl := by
  have h21 : ¬(freshUrl (s.nextId + 2) = freshUrl (s.nextId + 1)) :=
    fun h => by have := freshUrl_inj h; omega
  have h20 : ¬(freshUrl (s.nextId + 2) = freshUrl s.nextId) :=
    fun h => by have := freshUrl_inj h; omega
  have h10 : ¬(freshUrl (s.nextId + 1) = freshUrl s.nextId) :=
    fun h => by have := freshUrl_inj h; omega
  have hstore : (logOut s).store = (createAccount s).state.store := rfl
  have hhandle : (logOut s).handleUrl = freshUrl s.nextId := rfl
  have hcontact : (logOut s).contactHandleUrl = freshUrl (s.nextId + 1) := rfl
  refine ⟨?_, ?_, ?_, rfl⟩
  · rw [hstore, createAccount_store]
    simp
  · rw [hstore, hcontact, createAccount_store]
    simp [findDoc, h21]
  · refine ⟨{ contactUrl := some (freshUrl (s.nextId + 1)),
              rootFolderUrl := some (freshUrl (s.nextId + 2)) }, ?_, rfl,
            freshUrl (s.nextId + 2), rfl, ?_⟩
    · rw [hstore, hhandle, createAccount_store]
      simp [findDoc, h20, h10]
    · rw [hstore, createAccount_store]
      simp [findDoc]

/-! ### Claim C3 - signUp on an already-registered contact -/

/-- C3, counterexample.  The claim asserts that `signUp` on a registered
contact fails with an `InvalidState` error and leaves `name` and `avatarUrl`
unchanged.  The source has no such check: `signUp` cannot fail, and on the
sample registered identity it changes the contact document. -/
theorem signUp_registered_overwrites_cex :
    findDoc (signUp sampleSt "Bob" none).store sampleSt.contactHandleUrl
      ≠ findDoc sampleSt.store sampleSt.contactHandleUrl := by
  decide

/-- C3, amended: `signUp` on an already-registered contact does not fail; it
overwrites the contact's `name` (and keeps it registered), leaves `avatarUrl`
unchanged when no avatar was supplied, and touches no other field. -/
theorem signUp_registered_overwrites (s : St) (name : String) (c : ContactDoc)
    (hfind : findDoc s.store s.contactHandleUrl = some (Doc.contact c))
    (hreg : c.type = some ContactType.registered) :
    findDoc (signUp s name none).store s.contactHandleUrl
      = some (Doc.contact
          { c with type := some ContactType.registered, name := some name }) := by
  have hs : (signUp s name none).store
      = updateDoc s.store s.contactHandleUrl (fun d =>
          match d with
          | Doc.contact c =>
            Doc.contact
              { c with
                  type := some ContactType.registered
                  name := some name
                  avatarUrl := c.avatarUrl }
          | d => d) := rfl
  rw [hs, findDoc_updateDoc_self, hfind]
  rfl

/-- C3, witness: on the sample registered identity, `signUp "Bob"` leaves the
contact registered with the new name and the old avatar. -/
theorem signUp_registered_overwrites_witness :
    findDoc (signUp sampleSt "Bob" none).store sampleSt.contactHandleUrl
      = some (Doc.contact
          { adaContact with
              type := some ContactType.registered
              name := some "Bob" }) :=
  signUp_registered_overwrites sampleSt "Bob" adaContact (by decide) (by decide)

/-! ### Claim C4 - logIn failure behaviour -/

/-- C4, counterexample.  The claim asserts that when `logIn` fails the
persisted active pointer is left unchanged.  It is not: `logIn` overwrites
the pointer slot as its very first statement, before any validation, so a
failing call on an invalid reference still clobbers the persisted pointer. -/
theorem logIn_clobbers_pointer_cex :
    (logIn sampleValidId sampleSt "garbage").2.isSome = true ∧
    (logIn sampleValidId sampleSt "garbage").1.localStorage
      ≠ sampleSt.localStorage := by
  decide

/-- C4, amended: `logIn` persists the target reference into the pointer slot
unconditionally, before any validation.  When the reference is invalid or the
referenced identity document does not resolve, the operation raises an error
and the only state change is that already-persisted pointer (cached handles,
store and emitted events are untouched).  Only on success does it addit-
ionally replace both cached handles, pointing the contact handle at the
resolved document's `contactUrl`, and emit a change notification. -/
theorem logIn_persists_pointer_first (validId : String → Bool) (s : St)
    (url : String) :
    (logIn validId s url).1.localStorage = some url ∧
    ((logIn validId s url).2.isSome = true →
      (logIn validId s url).1 = logInPersist s url) ∧
    ((logIn validId s url).2 = none →
      (logIn validId s url).1.handleUrl = url ∧
      (logIn validId s url).1.store = s.store ∧
      (logIn validId s url).1.changeEmits = s.changeEmits + 1 ∧
      ∃ a : AccountDoc, findDoc s.store url = some (Doc.account a) ∧
        a.contactUrl = some (logIn validId s url).1.contactHandleUrl) := by
  unfold logIn logInResolve
  by_cases hv : isValidAutomergeUrl validId url = true
  · rw [if_pos hv]
    rcases hd : findDoc (logInPersist s url).store url with _ | d
    · exact ⟨by simp [logInPersist], fun _ => by rfl, fun h => by simp at h⟩
    · cases d with
      | account accountDoc =>
        rcases hc : accountDoc.contactUrl with _ | contactUrl
        · exact ⟨by simp [hc, logInPersist], fun _ => by simp [hc],
            fun h => by simp [hc] at h⟩
        · by_cases hcv : isValidAutomergeUrl validId contactUrl = true
          · refine ⟨by simp [hc, hcv, logInPersist],
              fun h => by simp [hc, hcv] at h,
              fun _ => ⟨by simp [hc, hcv], by simp [hc, hcv, logInPersist],
                by simp [hc, hcv, logInPersist], ?_⟩⟩
            refine ⟨accountDoc, hd, ?_⟩
            simp [hc, hcv]
          · exact ⟨by simp [hc, hcv, logInPersist], fun _ => by simp [hc, hcv],
              fun h => by simp [hc, hcv] at h⟩
      | contact c =>
        exact ⟨by simp [logInPersist], fun _ => by rfl, fun h => by simp at h⟩
      | folder f =>
        exact ⟨by simp [logInPersist], fun _ => by rfl, fun h => by simp at h⟩
  · rw [if_neg hv]
    exact ⟨by simp [logInPersist], fun _ => by rfl, fun h => by simp at h⟩

/-- C4, witness: a failing `logIn` on an invalid reference leaves everything
except the already-persisted pointer unchanged. -/
theorem logIn_persists_pointer_first_witness :
    (logIn sampleValidId sampleSt "garbage").1
      = logInPersist sampleSt "garbage" :=
  (logIn_persists_pointer_first sampleValidId sampleSt "garbage").2.1 (by decide)

/-! ### Claim C10 - getAccount requires a storage subsystem -/

/-- C10: on a repository without a storage subsystem, `getAccount` throws
before anything else happens - the returned state is exactly the input state:
the pointer slot is neither read nor written and no document is created. -/
theorem getAccount_requires_storage (validId : String → Bool) (s : St) :
    getAccount validId false s = (s, some AccountError.noStorage) := rfl

/-! ### Claim C8 - provider linking writes nothing on failure -/

/-- C8: when provider authentication (step 1) throws, `loginWithAtProto`
surfaces the error and returns the state exactly as it was; when the profile
fetch (step 3) throws, it surfaces the error and the only difference is the
in-memory OAuth session stored by the succeeding step 2 - the document store,
the persisted pointer and both cached handles are untouched, so no field of
the active identity or contact document is written. -/
theorem loginWithAtProto_no_partial_writes (validId : String → Bool) (s : St)
    (pss : PSSInput) :
    (∀ profileData, loginWithAtProto validId s none profileData pss
      = (s, some ())) ∧
    (∀ session : Session, loginWithAtProto validId s (some session) none pss
      = ({ s with session := some session }, some ())) :=
  ⟨fun _ => rfl, fun _ => rfl⟩

/-! ### Claim C9 - negotiation failures are swallowed -/

/-- C9: `connectToPSS` ends silently with the state unchanged when the record
fetch reports no record, when the record carries no host or an empty host,
and when the record fetch itself throws; and the enclosing linking operation
reports success for EVERY negotiation input - including inputs on which the
record fetch or the authenticate request throws - so a negotiation failure
is never propagated to the caller of the linking operation. -/
theorem connectToPSS_silent (validId : String → Bool) :
    (∀ (s : St) (a : Option (String × String)) (h : Option String),
      connectToPSS validId s { getRecord := some (false, h), authData := a }
        = s) ∧
    (∀ (s : St) (a : Option (String × String)),
      connectToPSS validId s { getRecord := some (true, none), authData := a }
        = s) ∧
    (∀ (s : St) (a : Option (String × String)),
      connectToPSS validId s
          { getRecord := some (true, some ""), authData := a } = s) ∧
    (∀ (s : St) (a : Option (String × String)),
      connectToPSS validId s { getRecord := none, authData := a } = s) ∧
    (∀ (s : St) (session : Session) (profileData : AtprotoProfileData)
        (pss : PSSInput),
      (loginWithAtProto validId s (some session) (some profileData) pss).2
        = none) := by
  refine ⟨fun s a h => ?_, fun s a => ?_, fun s a => ?_, fun s a => ?_,
    fun s session profileData pss => ?_⟩
  · simp [connectToPSS, connectToPSSBody]
  · simp [connectToPSS, connectToPSSBody]
  · simp [connectToPSS, connectToPSSBody]
  · simp [connectToPSS, connectToPSSBody]
  · rfl

/-! ### Claim C7 - cross-tab listener behaviour -/

/-- C7, counterexample.  The claim asserts the deferred watcher is one-shot
and `logIn` is called exactly once.  The source never removes the `change`
watcher, so once `contactUrl` is populated every further change event calls
`logIn` again: a document that changes twice after `contactUrl` appears
produces two calls. -/
theorem storageListener_not_oneshot_cex :
    (storageListenerCalls { contactUrl := none }
        [{ contactUrl := some "automerge:contactB" },
          { contactUrl := some "automerge:contactB" }]).length ≠ 1 := by
  decide

/-- C7, amended: every `logIn` call issued by the listener happens on a
document state whose `contactUrl` is populated (the process never switches to
an identity with `contactUrl` unset); if `contactUrl` is populated at the
event or becomes populated at some later change, `logIn` is called at least
once (the process does switch, with no reload); but the deferred watcher is
persistent, not one-shot: it calls `logIn` on every change event whose
document has `contactUrl` populated. -/
theorem storageListener_calls (d : AccountDoc) (cs : List AccountDoc) :
    (∀ c ∈ storageListenerCalls d cs, c.contactUrl.isSome = true) ∧
    ((d.contactUrl.isSome = true ∨ ∃ c ∈ cs, c.contactUrl.isSome = true) →
      storageListenerCalls d cs ≠ []) ∧
    (d.contactUrl = none →
      storageListenerCalls d cs
        = cs.filter fun c => c.contactUrl.isSome) := by
  unfold storageListenerCalls
  by_cases hd : d.contactUrl.isSome = true
  · rw [if_pos hd]
    refine ⟨?_, fun _ => by simp, fun h => ?_⟩
    · intro c hc
      simp at hc
      subst hc
      exact hd
    · rw [h] at hd
      simp at hd
  · rw [if_neg hd]
    refine ⟨?_, ?_, fun _ => rfl⟩
    · intro c hc
      exact (List.mem_filter.1 hc).2
    · intro hor
      rcases hor with h | ⟨c, hc, hcs⟩
      · exact absurd h hd
      · intro hnil
        have hmem : c ∈ cs.filter fun c => c.contactUrl.isSome :=
          List.mem_filter.2 ⟨hc, hcs⟩
        rw [hnil] at hmem
        cases hmem

/-- C7, witness: with `contactUrl` already populated at the event, the
listener calls `logIn` (the call list is nonempty). -/
theorem storageListener_calls_witness :
    storageListenerCalls { contactUrl := some "automerge:contactA" } [] ≠ [] :=
  (storageListener_calls { contactUrl := some "automerge:contactA" } []).2.1
    (Or.inl (by decide))

/-! ### Claim C1 - mismatch negotiation end state -/

/-- C1: concrete evaluation of the mismatch branch on `sampleSt` (current
identity `automerge:accA` with provider fields and registered contact,
negotiation response naming `automerge:accB` as canonical root).  The active
pointer does end up at `accB` and `accA` is left untouched and resolvable,
but - because `logOut()` and `logIn()` are invoked without awaiting them -
the preserved provider fields (`atprotoDid`, `atprotoHandle`, new `pssJwt`)
and contact fields (`name`, `atprotoProfile`) are written onto the throwaway
anonymous identity created by `logOut` (addresses `freshUrl 0` / `freshUrl
1`), while `accB`'s identity and contact documents never receive them,
contradicting the claimed end state. -/
theorem connectToPSS_mismatch_divergence :
    mismatchFinal.localStorage = some "automerge:accB" ∧
    mismatchFinal.handleUrl = "automerge:accB" ∧
    mismatchFinal.contactHandleUrl = "automerge:contactB" ∧
    findDoc mismatchFinal.store "automerge:accB"
      = some (Doc.account
          { contactUrl := some "automerge:contactB"
            rootFolderUrl := some "automerge:folderB" }) ∧
    findDoc mismatchFinal.store "automerge:contactB"
      = some (Doc.contact
          { type := some ContactType.registered
            name := some "Old Ada" }) ∧
    findDoc mismatchFinal.store (freshUrl 0)
      = some (Doc.account
          { contactUrl := some (freshUrl 1)
            rootFolderUrl := some (freshUrl 2)
            atprotoDid := some "did:plc:alice"
            atprotoHandle := some "alice.example"
            pssJwt := some "newjwt" }) ∧
    findDoc mismatchFinal.store (freshUrl 1)
      = some (Doc.contact
          { type := some ContactType.registered
            name := some "Ada"
            atprotoProfile := adaContact.atprotoProfile }) ∧
    findDoc mismatchFinal.store "automerge:accA"
      = findDoc sampleSt.store "automerge:accA" ∧
    findDoc mismatchFinal.store "automerge:contactA"
      = findDoc sampleSt.store "automerge:contactA" := by
  decide

end TinyEssay
